import Mathlib

/-!
Verification development for the hybrid game recommender.

The repository ships the React client (`src/frontend/src/pages/Dashboard.jsx`,
`src/frontend/src/App.jsx`, and the unnamed files holding `FilterComponent` and
`useAuthStore`).  The Python backend described by the spec (`etl.py`,
`semantic_search.py`, `hybrid_recommender.py`, `main.py`) is not part of the
sources; those parts are modelled from the spec, and each such definition says so
in its doc comment.  Client-side definitions are translated directly from the
JSX sources.
-/

set_option maxHeartbeats 1000000

namespace GameRec

/-- Client-side filter state, as initialized in `Dashboard.jsx`
(`useState({ maxPrice: 100, genres: [], windows: false, mac: false, linux: false })`).
The price slider yields integers 0..100 in steps of 5. -/
structure ClientFilters where
  maxPrice : ℕ
  genres : List String
  windows : Bool
  mac : Bool
  linux : Bool
deriving DecidableEq, Repr

/-- Model of `toggleGenre` from `FilterComponent` (src/unnamed/part_000, lines 23-30):
if the genre is already included it is filtered out of the selection, otherwise it
is appended; all other filter fields are spread through unchanged. -/
def toggleGenre (genre : String) (prev : ClientFilters) : ClientFilters :=
  { prev with
    genres :=
      if genre ∈ prev.genres then prev.genres.filter (fun g => g != genre)
      else prev.genres ++ [genre] }

/-- Wire-format filters of the POST `/api/recommend` body (spec §6 request shape):
every field may be absent/null. A platform field is `some true` when the client
requests that platform (the client never sends `false`, it omits the key). -/
structure RequestFilters where
  max_price : Option ℕ
  genres : Option (List String)
  windows : Option Bool
  mac : Option Bool
  linux : Option Bool
deriving DecidableEq, Repr

/-- The filters object built by `handleSearch` in `Dashboard.jsx` (lines 50-56):
`max_price` is null unless the slider is below 100, `genres` is null when empty,
and a platform key is omitted (`undefined`) when its flag is false
(`filters.windows || undefined`). -/
def buildRequestFilters (f : ClientFilters) : RequestFilters :=
  { max_price := if f.maxPrice < 100 then some f.maxPrice else none
    genres := if f.genres = [] then none else some f.genres
    windows := if f.windows then some true else none
    mac := if f.mac then some true else none
    linux := if f.linux then some true else none }

/-- Body of the POST `/api/recommend` request (spec §6). -/
structure RecRequest where
  query : String
  filters : RequestFilters
  alpha : ℚ
  top_n : ℕ
deriving DecidableEq, Repr

/-- Model of the JavaScript `String.prototype.trim`: drop leading and trailing
whitespace from the character list. -/
def trimChars (l : List Char) : List Char :=
  ((l.dropWhile Char.isWhitespace).reverse.dropWhile Char.isWhitespace).reverse

/-- Trimming a string, as `query.trim()` does in `handleSearch`. -/
def strTrim (s : String) : String := ⟨trimChars s.data⟩

/-- Model of `handleSearch` from `Dashboard.jsx` (lines 40-59), restricted to its
request-building behaviour: when the query is blank after trimming it returns
early (a toast is shown, no POST is issued, modelled as `none`); otherwise it
issues the POST with the request body built from the current state. -/
def handleSearch (query : String) (f : ClientFilters) (alpha : ℚ) (topN : ℕ) :
    Option RecRequest :=
  if strTrim query = "" then none
  else some { query := query, filters := buildRequestFilters f, alpha := alpha, top_n := topN }

/-- The pieces of `Dashboard` component state relevant to a query context. -/
structure DashboardState where
  query : String
  filters : ClientFilters
  alpha : ℚ
  topN : ℕ
deriving DecidableEq, Repr

/-- Initial `Dashboard` state from its `useState` initializers
(`Dashboard.jsx` lines 7-20): empty query, all-permissive filters,
`alpha` 0.5 and `topN` 12. -/
def dashboardInit : DashboardState :=
  { query := ""
    filters := { maxPrice := 100, genres := [], windows := false, mac := false, linux := false }
    alpha := 1/2
    topN := 12 }

/-- Model of `fetchGenres`: in both `Dashboard.jsx` (line 32) and `FilterComponent`
(src/unnamed/part_000, line 17) stores `response.data.genres.slice(0, 12)`
as the selectable genre options. -/
def storedGenres (genres : List String) : List String := genres.take 12

/-- Authentication state held by `useAuthStore` (src/unnamed/part_000,
lines 220-248): a possibly-absent user record and a boolean flag. -/
structure AuthState (α : Type) where
  user : Option α
  isAuthenticated : Bool
deriving DecidableEq, Repr

/-- The zustand store together with the browser `localStorage` slot
`auth-storage` it persists to. -/
structure AuthStore (α : Type) where
  state : AuthState α
  storage : Option (AuthState α)
deriving DecidableEq, Repr

/-- Model of `login` from `useAuthStore`: sets `{ user: userData, isAuthenticated: true }`
and writes the same object to `localStorage` under `auth-storage`. -/
def login (userData : α) (_s : AuthStore α) : AuthStore α :=
  { state := { user := some userData, isAuthenticated := true }
    storage := some { user := some userData, isAuthenticated := true } }

/-- Model of `logout` from `useAuthStore`: sets `{ user: null, isAuthenticated: false }`
and writes the same object to `localStorage`. -/
def logout (_s : AuthStore α) : AuthStore α :=
  { state := { user := none, isAuthenticated := false }
    storage := some { user := none, isAuthenticated := false } }

/-- Model of `register` from `useAuthStore`: identical shape to `login`. -/
def register (userData : α) (_s : AuthStore α) : AuthStore α :=
  { state := { user := some userData, isAuthenticated := true }
    storage := some { user := some userData, isAuthenticated := true } }

/-- Catalog item (spec §3 data model; the preparing backend `etl.py` is not among
the sources). Vote counts are naturals, so they are non-negative by construction. -/
structure Item where
  appid : ℕ
  name : String
  description : String
  genres : List String
  tags : List String
  price : ℚ
  windows : Bool
  mac : Bool
  linux : Bool
  positive : ℕ
  negative : ℕ
deriving DecidableEq, Repr

/-- Total vote count `v` of an item: positive plus negative votes (spec §4.1). -/
def Item.votes (i : Item) : ℕ := i.positive + i.negative

/-- Positive-vote ratio `R` of an item: `positive / (positive+negative)`,
defined as 0 when the item has no votes (spec §4.1). -/
def posRatio (i : Item) : ℚ :=
  if i.votes = 0 then 0 else (i.positive : ℚ) / (i.votes : ℚ)

/-- Insertion into a sorted list of naturals, ascending. -/
def insertSorted (n : ℕ) : List ℕ → List ℕ
  | [] => [n]
  | m :: ms => if n ≤ m then n :: m :: ms else m :: insertSorted n ms

/-- Insertion sort on naturals, ascending. -/
def sortNat : List ℕ → List ℕ
  | [] => []
  | n :: ns => insertSorted n (sortNat ns)

/-- Modelled from the spec: the vote-count threshold `m`, "the 90th-percentile
vote count across the whole catalog" (§4.1); the code computing it (`etl.py`)
is missing from the sources.  Nearest-rank 90th percentile: the entry at
one-based rank ⌈0.9·n⌉ of the ascending vote counts (0 for an empty catalog). -/
def percentile90 (catalog : List Item) : ℕ :=
  (sortNat (catalog.map Item.votes)).getD ((9 * catalog.length + 9) / 10 - 1) 0

/-- Modelled from the spec: the catalog mean `C`, the "mean positive-vote ratio
across items with v>0" (§4.1); the code computing it (`etl.py`) is missing from
the sources.  Taken as 0 when no item has votes. -/
def catalogC (catalog : List Item) : ℚ :=
  let voted := catalog.filter (fun i => i.votes != 0)
  if voted.length = 0 then 0
  else (voted.map posRatio).sum / (voted.length : ℚ)

/-- Modelled from the spec: the Quality Scorer (§4.1), whose source (`etl.py`)
is missing from the sources.  Shrinkage formula
`quality = (v/(v+m))·R + (m/(v+m))·C`, with the spec's stated edge case that
items with `v = 0` receive exactly `C`. -/
def qualityScore (catalog : List Item) (i : Item) : ℚ :=
  if i.votes = 0 then catalogC catalog
  else
    ((i.votes : ℚ) / ((i.votes : ℚ) + (percentile90 catalog : ℚ))) * posRatio i +
      ((percentile90 catalog : ℚ) / ((i.votes : ℚ) + (percentile90 catalog : ℚ))) *
        catalogC catalog

/-- A ranked candidate: item identifier with its semantic and quality scores
(spec §3, Recommendation Result). -/
structure Scored where
  appid : ℕ
  semantic : ℚ
  quality : ℚ
deriving DecidableEq, Repr

/-- Modelled from the spec: score fusion (§4.6 step 5),
`final_score = α·semantic_score + (1-α)·quality_score`; the fusing code
(`hybrid_recommender.py`) is missing from the sources. -/
def finalScore (α : ℚ) (s : Scored) : ℚ := α * s.semantic + (1 - α) * s.quality

/-- Modelled from the spec: the ranking order (§4.6 step 6) — final score
descending, ties by quality score descending, then identifier ascending.
`rankLE a b` means `a` may come no later than `b`. -/
def rankLE (α : ℚ) (a b : Scored) : Bool :=
  if finalScore α b < finalScore α a then true
  else if finalScore α a < finalScore α b then false
  else if b.quality < a.quality then true
  else if a.quality < b.quality then false
  else decide (a.appid ≤ b.appid)

/-- The same tie-break ladder keyed on semantic score alone. -/
def semLE (a b : Scored) : Bool :=
  if b.semantic < a.semantic then true
  else if a.semantic < b.semantic then false
  else if b.quality < a.quality then true
  else if a.quality < b.quality then false
  else decide (a.appid ≤ b.appid)

/-- The same tie-break ladder keyed on quality score alone. -/
def qualLE (a b : Scored) : Bool :=
  if b.quality < a.quality then true
  else if a.quality < b.quality then false
  else decide (a.appid ≤ b.appid)

/-- Ordered insertion for the ranking sort. -/
def insertOrd (le : Scored → Scored → Bool) (a : Scored) : List Scored → List Scored
  | [] => [a]
  | b :: bs => if le a b then a :: b :: bs else b :: insertOrd le a bs

/-- Stable insertion sort used to model the ranking step. -/
def sortRank (le : Scored → Scored → Bool) : List Scored → List Scored
  | [] => []
  | a :: as => insertOrd le a (sortRank le as)

/-- Modelled from the spec: step 6 of the Hybrid Ranking Engine (§4.6), sorting
candidates by the fused order for weight `α`. -/
def rank (α : ℚ) (l : List Scored) : List Scored := sortRank (rankLE α) l

/-- Ranking by semantic score alone, with the stated tie-break rule. -/
def rankBySemantic (l : List Scored) : List Scored := sortRank semLE l

/-- Ranking by quality score alone, with the stated tie-break rule. -/
def rankByQuality (l : List Scored) : List Scored := sortRank qualLE l

/-- Price component of the Catalog Store predicate (spec §4.5):
`price ≤ max_price` when set, a no-op when absent. -/
def pricePasses (mp : Option ℕ) (i : Item) : Bool :=
  match mp with
  | none => true
  | some p => decide (i.price ≤ (p : ℚ))

/-- Genre component of the Catalog Store predicate (spec §4.5): the item's genre
set must intersect the requested genres when set, a no-op when absent. -/
def genresPass (gs : Option (List String)) (i : Item) : Bool :=
  match gs with
  | none => true
  | some req => i.genres.any (fun g => req.contains g)

/-- Platform component of the Catalog Store predicate (spec §4.5): the platform
flag must be true when requested, a no-op when absent or not requested. -/
def platformPasses (req : Option Bool) (flag : Bool) : Bool :=
  match req with
  | none => true
  | some b => !b || flag

/-- Modelled from the spec: the Catalog Store filter predicate (§4.5), the
conjunction of its price, genre and platform components; the filtering code
(`hybrid_recommender.py`) is missing from the sources. -/
def passesFilter (f : RequestFilters) (i : Item) : Bool :=
  pricePasses f.max_price i && genresPass f.genres i &&
    platformPasses f.windows i.windows && platformPasses f.mac i.mac &&
      platformPasses f.linux i.linux

/-- Serving-time error taxonomy surfaced to the caller (spec §7): only the
blank-query rejection. -/
inductive RecError
  | EmptyQuery
deriving DecidableEq, Repr

/-- Modelled from the spec: hydration (§4.6 step 3) — join each candidate
identifier against the catalog, dropping identifiers with no catalog entry. -/
def hydrate (catalog : List Item) (cands : List (ℕ × ℚ)) : List (Item × ℚ) :=
  cands.filterMap fun c => (catalog.find? (fun i => i.appid == c.1)).map (fun i => (i, c.2))

/-- Candidates surviving hydration and the filter predicate (§4.6 step 3). -/
def filteredCandidates (catalog : List Item) (f : RequestFilters)
    (cands : List (ℕ × ℚ)) : List (Item × ℚ) :=
  (hydrate catalog cands).filter (fun p => passesFilter f p.1)

/-- Modelled from the spec: normalization (§4.6 step 4) — semantic score is the
raw similarity clamped below at 0, quality score is the precomputed value. -/
def scoreCandidates (catalog : List Item) (l : List (Item × ℚ)) : List Scored :=
  l.map fun p => { appid := p.1.appid, semantic := max p.2 0, quality := qualityScore catalog p.1 }

/-- The ranked, truncated result list the engine returns for a non-blank query. -/
def recResult (search : String → ℕ → List (ℕ × ℚ)) (catalog : List Item)
    (req : RecRequest) : List Scored :=
  (rank req.alpha
      (scoreCandidates catalog (filteredCandidates catalog req.filters (search req.query 50)))).take
    req.top_n

/-- Modelled from the spec: the Hybrid Ranking Engine request pipeline (§4.6),
whose source (`hybrid_recommender.py`, `main.py`) is missing from the sources.
Blank-after-trim queries are rejected with `EmptyQuery` before the embedding /
index search (`search`) is consulted; otherwise the top-50 candidates are
hydrated, filtered, scored, ranked and truncated to `top_n`. -/
def recommend (search : String → ℕ → List (ℕ × ℚ)) (catalog : List Item)
    (req : RecRequest) : Except RecError (List Scored) :=
  if strTrim req.query = "" then .error .EmptyQuery
  else .ok (recResult search catalog req)

/-- Concrete item used to evaluate theorems on a closed input: 4 votes, 3 positive. -/
def sampleItem : Item :=
  { appid := 1, name := "a", description := "d", genres := ["Action"], tags := ["fun"]
    price := 10, windows := true, mac := false, linux := false, positive := 3, negative := 1 }

/-- Concrete item with no votes, used to evaluate the zero-vote edge case. -/
def sampleItemNoVotes : Item :=
  { appid := 2, name := "b", description := "e", genres := ["Indie"], tags := []
    price := 5, windows := true, mac := true, linux := false, positive := 0, negative := 0 }

/-- Concrete two-item catalog for closed evaluations. -/
def sampleCatalog : List Item := [sampleItem, sampleItemNoVotes]

/-- Concrete index-search stub for closed evaluations. -/
def sampleSearch : String → ℕ → List (ℕ × ℚ) := fun _ _ => [(1, 1/2), (2, -1/4), (7, 1)]

/-- Concrete request for closed evaluations. -/
def sampleReq : RecRequest :=
  { query := "space survival", filters := ⟨none, none, none, none, none⟩
    alpha := 1/2, top_n := 10 }

/-- C4 counterexample: the claim says the client's initial query context carries
requested result count 10, but `useState(12)` in `Dashboard.jsx` line 20 makes the
initial `topN` equal to 12, so the conjunction with `top_n = 10` is false. -/
theorem dashboardInit_topN_ne_ten :
    ¬ (dashboardInit.alpha = 1/2 ∧ dashboardInit.topN = 10) := by
  intro h
  exact absurd h.2 (by decide)

/-- C4 (amended): the client's initial query context carries fusion weight
`alpha = 0.5` and requested result count `top_n = 12`. -/
theorem dashboardInit_defaults :
    dashboardInit.alpha = 1/2 ∧ dashboardInit.topN = 12 := ⟨rfl, rfl⟩

/-- C8: each auth-store operation establishes the invariant that
`isAuthenticated` holds exactly when `user` is non-null — `login` and `register`
set the given user with `isAuthenticated` true, `logout` sets a null user with
`isAuthenticated` false — and each writes the very state it sets to the
`auth-storage` slot of `localStorage`. -/
theorem authStore_invariant {α : Type} (u : α) (s : AuthStore α) :
    ((login u s).state = ⟨some u, true⟩ ∧
      (login u s).storage = some (login u s).state ∧
      ((login u s).state.isAuthenticated = true ↔ (login u s).state.user.isSome = true)) ∧
    ((register u s).state = ⟨some u, true⟩ ∧
      (register u s).storage = some (register u s).state ∧
      ((register u s).state.isAuthenticated = true ↔ (register u s).state.user.isSome = true)) ∧
    ((logout s).state = ⟨none, false⟩ ∧
      (logout s).storage = some (logout s).state ∧
      ((logout s).state.isAuthenticated = true ↔ (logout s).state.user.isSome = true)) := by
  refine ⟨⟨rfl, rfl, ?_⟩, ⟨rfl, rfl, ?_⟩, ⟨rfl, rfl, ?_⟩⟩ <;> simp [login, register, logout]

/-- C9: toggling a genre twice restores the original membership set of selected
genres, a single toggle selects the genre exactly when it was not selected
before, and toggling never touches the other filter fields. -/
theorem toggleGenre_involutive (f : ClientFilters) (g : String) :
    (∀ x, x ∈ (toggleGenre g (toggleGenre g f)).genres ↔ x ∈ f.genres) ∧
    ((g ∈ (toggleGenre g f).genres) ↔ ¬ g ∈ f.genres) ∧
    (toggleGenre g f).maxPrice = f.maxPrice ∧
    (toggleGenre g f).windows = f.windows ∧
    (toggleGenre g f).mac = f.mac ∧
    (toggleGenre g f).linux = f.linux := by
  refine ⟨?_, ?_, rfl, rfl, rfl, rfl⟩
  · intro x
    by_cases hg : g ∈ f.genres <;> by_cases hx : x = g <;>
      simp_all [toggleGenre, List.mem_filter, List.mem_append]
  · by_cases hg : g ∈ f.genres <;> simp [toggleGenre, hg, List.mem_filter, List.mem_append]

/-- C10: the client stores exactly the first `min 12 (length)` entries of the
genres list returned by `/api/genres` as the selectable genre options, so at
most 12 genres are ever selectable. -/
theorem storedGenres_spec (l : List String) :
    (storedGenres l).length = min 12 l.length ∧
    (storedGenres l).length ≤ 12 ∧
    ∀ i, i < (storedGenres l).length → (storedGenres l).getD i "" = l.getD i "" := by
  refine ⟨List.length_take 12 l, ?_, ?_⟩
  · rw [storedGenres, List.length_take]
    exact min_le_left _ _
  · intro i hi
    have h12 : i < 12 := lt_of_lt_of_le hi (by rw [storedGenres, List.length_take]; exact min_le_left _ _)
    rw [storedGenres, List.getD_eq_getElem?_getD, List.getD_eq_getElem?_getD]
    simp [List.getElem?_take, h12]

/-- C10 witness: on the concrete list `["a", "b"]` the stored options agree with
the list entrywise at index 0. -/
theorem storedGenres_spec_witness :
    (storedGenres ["a", "b"]).getD 0 "" = (["a", "b"] : List String).getD 0 "" :=
  (storedGenres_spec ["a", "b"]).2.2 0 (by decide)

/-- C3: a query that is blank after trimming is rejected before any network or
model activity — the client's `handleSearch` returns without issuing its POST,
and the engine rejects such a request with `EmptyQuery` whatever the search
backend, catalog or filters are (so no partial result and no model call can
depend on them). -/
theorem emptyQuery_rejected (q : String) (f : ClientFilters) (α : ℚ) (n : ℕ)
    (hq : strTrim q = "") :
    handleSearch q f α n = none ∧
    ∀ (search : String → ℕ → List (ℕ × ℚ)) (catalog : List Item) (flt : RequestFilters),
      recommend search catalog { query := q, filters := flt, alpha := α, top_n := n } =
        Except.error RecError.EmptyQuery := by
  constructor
  · simp [handleSearch, hq]
  · intro search catalog flt
    simp [recommend, hq]

/-- C3 witness: the concrete whitespace query is rejected by the client and by
the engine run against a concrete search stub and catalog. -/
theorem emptyQuery_rejected_witness :
    handleSearch "  " ⟨100, [], false, false, false⟩ (1/2) 12 = none ∧
    recommend sampleSearch sampleCatalog
        { query := "  ", filters := ⟨none, none, none, none, none⟩
          alpha := 1/2, top_n := 12 } =
      Except.error RecError.EmptyQuery :=
  ⟨(emptyQuery_rejected "  " ⟨100, [], false, false, false⟩ (1/2) 12 (by decide)).1,
   (emptyQuery_rejected "  " ⟨100, [], false, false, false⟩ (1/2) 12 (by decide)).2
      sampleSearch sampleCatalog ⟨none, none, none, none, none⟩⟩

/-- Price component characterization: it restricts only when `max_price` is set. -/
theorem pricePasses_iff (mp : Option ℕ) (i : Item) :
    pricePasses mp i = true ↔ ∀ p, mp = some p → i.price ≤ (p : ℚ) := by
  cases mp <;> simp [pricePasses]

/-- Genre component characterization: it restricts only when `genres` is set. -/
theorem genresPass_iff (gs : Option (List String)) (i : Item) :
    genresPass gs i = true ↔
      ∀ req, gs = some req → i.genres.any (fun g => req.contains g) = true := by
  cases gs <;> simp [genresPass]

/-- Platform component characterization: it restricts only when the platform is
requested with `true`. -/
theorem platformPasses_iff (req : Option Bool) (flag : Bool) :
    platformPasses req flag = true ↔ (req = some true → flag = true) := by
  rcases req with _ | b
  · simp [platformPasses]
  · cases b <;> simp [platformPasses]

/-- C5: absent or null filter fields do not restrict — the all-null filter passes
every item, and the predicate is exactly the conjunction of the price bound when
`max_price` is set, the genre intersection when `genres` is set, and each
platform flag when requested; and the client sends `max_price` null when the
slider is at 100 or more, `genres` null when empty, and omits platform flags
that are false. -/
theorem filters_no_op_when_absent :
    (∀ i : Item, passesFilter ⟨none, none, none, none, none⟩ i = true) ∧
    (∀ (f : RequestFilters) (i : Item),
      passesFilter f i = true ↔
        ((∀ p, f.max_price = some p → i.price ≤ (p : ℚ)) ∧
         (∀ req, f.genres = some req → i.genres.any (fun g => req.contains g) = true) ∧
         (f.windows = some true → i.windows = true) ∧
         (f.mac = some true → i.mac = true) ∧
         (f.linux = some true → i.linux = true))) ∧
    (∀ f : ClientFilters,
      (100 ≤ f.maxPrice → (buildRequestFilters f).max_price = none) ∧
      (f.maxPrice < 100 → (buildRequestFilters f).max_price = some f.maxPrice) ∧
      (f.genres = [] → (buildRequestFilters f).genres = none) ∧
      (f.genres ≠ [] → (buildRequestFilters f).genres = some f.genres) ∧
      (f.windows = false → (buildRequestFilters f).windows = none) ∧
      (f.windows = true → (buildRequestFilters f).windows = some true) ∧
      (f.mac = false → (buildRequestFilters f).mac = none) ∧
      (f.mac = true → (buildRequestFilters f).mac = some true) ∧
      (f.linux = false → (buildRequestFilters f).linux = none) ∧
      (f.linux = true → (buildRequestFilters f).linux = some true)) := by
  refine ⟨fun i => rfl, ?_, ?_⟩
  · intro f i
    simp only [passesFilter, Bool.and_eq_true, pricePasses_iff, genresPass_iff,
      platformPasses_iff]
    tauto
  · intro f
    refine ⟨fun h => ?_, fun h => ?_, fun h => ?_, fun h => ?_, fun h => ?_,
      fun h => ?_, fun h => ?_, fun h => ?_, fun h => ?_, fun h => ?_⟩
    · simp [buildRequestFilters, Nat.not_lt.mpr h]
    all_goals simp [buildRequestFilters, h]

/-- C5 witness: the all-null filter passes a concrete item, and the concrete
initial client filter state is sent with `max_price` and `genres` null. -/
theorem filters_no_op_when_absent_witness :
    passesFilter ⟨none, none, none, none, none⟩ sampleItem = true ∧
    (buildRequestFilters ⟨100, [], false, false, false⟩).max_price = none ∧
    (buildRequestFilters ⟨100, [], false, false, false⟩).genres = none ∧
    (buildRequestFilters ⟨100, [], false, false, false⟩).windows = none :=
  ⟨filters_no_op_when_absent.1 sampleItem,
   (filters_no_op_when_absent.2.2 ⟨100, [], false, false, false⟩).1 (by decide),
   (filters_no_op_when_absent.2.2 ⟨100, [], false, false, false⟩).2.2.1 (by decide),
   (filters_no_op_when_absent.2.2 ⟨100, [], false, false, false⟩).2.2.2.2.1 (by decide)⟩

/-- At fusion weight 1 the fused score is the semantic score. -/
theorem finalScore_one (s : Scored) : finalScore 1 s = s.semantic := by
  simp [finalScore]

/-- At fusion weight 0 the fused score is the quality score. -/
theorem finalScore_zero (s : Scored) : finalScore 0 s = s.quality := by
  simp [finalScore]

/-- The ranking order at weight 1 coincides with the semantic-only order. -/
theorem rankLE_one : rankLE 1 = semLE := by
  funext a b
  simp only [rankLE, semLE, finalScore_one]

/-- The ranking order at weight 0 coincides with the quality-only order. -/
theorem rankLE_zero : rankLE 0 = qualLE := by
  funext a b
  simp only [rankLE, qualLE, finalScore_zero]
  rcases lt_trichotomy a.quality b.quality with h | h | h
  · simp [h, lt_asymm h]
  · simp [h]
  · simp [h, lt_asymm h]

/-- C2: on any candidate list, the ranking produced with fusion weight 1 equals
the ranking by semantic score alone, and the ranking produced with weight 0
equals the ranking by quality score alone, both under the stated tie-break rule
(quality descending, then identifier ascending). -/
theorem alpha_boundary_rankings (l : List Scored) :
    rank 1 l = rankBySemantic l ∧ rank 0 l = rankByQuality l := by
  constructor
  · show sortRank (rankLE 1) l = sortRank semLE l
    rw [rankLE_one]
  · show sortRank (rankLE 0) l = sortRank qualLE l
    rw [rankLE_zero]

/-- C1: the Quality Scorer assigns the shrinkage value
`(v/(v+m))·R + (m/(v+m))·C` to every item for which the formula is defined
(`v + m > 0`), and every item with `v = 0` receives exactly the catalog mean `C`. -/
theorem quality_formula (catalog : List Item) (i : Item) (_hi : i ∈ catalog) :
    (i.votes = 0 → qualityScore catalog i = catalogC catalog) ∧
    (0 < i.votes + percentile90 catalog →
      qualityScore catalog i =
        ((i.votes : ℚ) / ((i.votes : ℚ) + (percentile90 catalog : ℚ))) * posRatio i +
          ((percentile90 catalog : ℚ) / ((i.votes : ℚ) + (percentile90 catalog : ℚ))) *
            catalogC catalog) := by
  constructor
  · intro h0
    rw [qualityScore, if_pos h0]
  · intro hpos
    by_cases h0 : i.votes = 0
    · have hm : 0 < percentile90 catalog := by omega
      have hmQ : ((percentile90 catalog : ℚ)) ≠ 0 :=
        Nat.cast_ne_zero.mpr (Nat.pos_iff_ne_zero.mp hm)
      rw [qualityScore, if_pos h0]
      simp [posRatio, h0, div_self hmQ]
    · rw [qualityScore, if_neg h0]

/-- C1 witness: in the concrete two-item catalog, the zero-vote item receives
exactly the catalog mean. -/
theorem quality_formula_witness :
    qualityScore sampleCatalog sampleItemNoVotes = catalogC sampleCatalog :=
  (quality_formula sampleCatalog sampleItemNoVotes (by decide)).1 (by decide)

/-- Positive-vote ratios are non-negative. -/
theorem posRatio_nonneg (i : Item) : 0 ≤ posRatio i := by
  rw [posRatio]
  split
  · exact le_refl 0
  · positivity

/-- Positive-vote ratios are at most one. -/
theorem posRatio_le_one (i : Item) : posRatio i ≤ 1 := by
  rw [posRatio]
  split
  · exact zero_le_one
  · apply div_le_one_of_le₀
    · exact_mod_cast Nat.le_add_right i.positive i.negative
    · positivity

/-- The catalog mean of positive-vote ratios is non-negative. -/
theorem catalogC_nonneg (catalog : List Item) : 0 ≤ catalogC catalog := by
  simp only [catalogC]
  split
  · exact le_refl 0
  · apply div_nonneg
    · apply List.sum_nonneg
      intro x hx
      obtain ⟨j, _, rfl⟩ := List.mem_map.mp hx
      exact posRatio_nonneg j
    · positivity

/-- The catalog mean of positive-vote ratios is at most one. -/
theorem catalogC_le_one (catalog : List Item) : catalogC catalog ≤ 1 := by
  simp only [catalogC]
  split
  · exact zero_le_one
  · next h =>
    rw [div_le_one (by exact_mod_cast Nat.pos_of_ne_zero h)]
    calc ((catalog.filter (fun i => i.votes != 0)).map posRatio).sum
        ≤ ((catalog.filter (fun i => i.votes != 0)).map posRatio).length • (1 : ℚ) := by
          apply List.sum_le_card_nsmul
          intro x hx
          obtain ⟨j, _, rfl⟩ := List.mem_map.mp hx
          exact posRatio_le_one j
      _ = ((catalog.filter (fun i => i.votes != 0)).length : ℚ) := by
          simp [List.length_map]

/-- C7: every quality score lies in the closed unit interval. -/
theorem qualityScore_mem_unit (catalog : List Item) (i : Item) (_hi : i ∈ catalog) :
    0 ≤ qualityScore catalog i ∧ qualityScore catalog i ≤ 1 := by
  have hR0 := posRatio_nonneg i
  have hR1 := posRatio_le_one i
  have hC0 := catalogC_nonneg catalog
  have hC1 := catalogC_le_one catalog
  by_cases h0 : i.votes = 0
  · rw [qualityScore, if_pos h0]
    exact ⟨hC0, hC1⟩
  · rw [qualityScore, if_neg h0]
    have hvpos : (0 : ℚ) < (i.votes : ℚ) := by exact_mod_cast Nat.pos_of_ne_zero h0
    have hm0 : (0 : ℚ) ≤ (percentile90 catalog : ℚ) := by positivity
    have hsum : (0 : ℚ) < (i.votes : ℚ) + (percentile90 catalog : ℚ) := by linarith
    have hw1 : (0 : ℚ) ≤ (i.votes : ℚ) / ((i.votes : ℚ) + (percentile90 catalog : ℚ)) := by
      positivity
    have hw2 : (0 : ℚ) ≤ (percentile90 catalog : ℚ) / ((i.votes : ℚ) + (percentile90 catalog : ℚ)) := by
      positivity
    have hws : (i.votes : ℚ) / ((i.votes : ℚ) + (percentile90 catalog : ℚ)) +
        (percentile90 catalog : ℚ) / ((i.votes : ℚ) + (percentile90 catalog : ℚ)) = 1 := by
      rw [div_add_div_same, div_self (ne_of_gt hsum)]
    constructor
    · have h1 := mul_nonneg hw1 hR0
      have h2 := mul_nonneg hw2 hC0
      linarith
    · have h1 : (i.votes : ℚ) / ((i.votes : ℚ) + (percentile90 catalog : ℚ)) * posRatio i ≤
          (i.votes : ℚ) / ((i.votes : ℚ) + (percentile90 catalog : ℚ)) :=
        mul_le_of_le_one_right hw1 hR1
      have h2 : (percentile90 catalog : ℚ) / ((i.votes : ℚ) + (percentile90 catalog : ℚ)) *
          catalogC catalog ≤
          (percentile90 catalog : ℚ) / ((i.votes : ℚ) + (percentile90 catalog : ℚ)) :=
        mul_le_of_le_one_right hw2 hC1
      linarith

/-- C7 witness: both bounds evaluated at a concrete catalog item. -/
theorem qualityScore_mem_unit_witness :
    0 ≤ qualityScore sampleCatalog sampleItem ∧ qualityScore sampleCatalog sampleItem ≤ 1 :=
  qualityScore_mem_unit sampleCatalog sampleItem (by decide)

/-- Ordered insertion grows the length by one. -/
theorem insertOrd_length (le : Scored → Scored → Bool) (a : Scored) (l : List Scored) :
    (insertOrd le a l).length = l.length + 1 := by
  induction l with
  | nil => rfl
  | cons b bs ih =>
    rw [insertOrd]
    split <;> simp [List.length_cons, ih]

/-- The ranking sort preserves the number of candidates. -/
theorem sortRank_length (le : Scored → Scored → Bool) (l : List Scored) :
    (sortRank le l).length = l.length := by
  induction l with
  | nil => rfl
  | cons a as ih =>
    rw [sortRank, insertOrd_length, ih, List.length_cons]

/-- C6: for every non-blank query, the engine succeeds and returns exactly
`min top_n k` recommendations, where `k` is the number of items passing the
filters among the retrieved candidates; when `k ≤ top_n` the whole ranked
filtered set is returned — never an error. -/
theorem recommend_length (search : String → ℕ → List (ℕ × ℚ)) (catalog : List Item)
    (req : RecRequest) (hq : ¬ strTrim req.query = "") :
    recommend search catalog req = Except.ok (recResult search catalog req) ∧
    (recResult search catalog req).length =
      min req.top_n (filteredCandidates catalog req.filters (search req.query 50)).length ∧
    ((filteredCandidates catalog req.filters (search req.query 50)).length ≤ req.top_n →
      recResult search catalog req =
        rank req.alpha
          (scoreCandidates catalog
            (filteredCandidates catalog req.filters (search req.query 50)))) := by
  refine ⟨by rw [recommend, if_neg hq], ?_, ?_⟩
  · rw [recResult, List.length_take, rank, sortRank_length, scoreCandidates, List.length_map]
  · intro hle
    rw [recResult]
    apply List.take_of_length_le
    rw [rank, sortRank_length, scoreCandidates, List.length_map]
    exact hle

/-- C6 witness: on the concrete request (stub search returning three candidates,
one of them stale, one filtered only by hydration), the engine returns `ok` with
the stated length. -/
theorem recommend_length_witness :
    recommend sampleSearch sampleCatalog sampleReq =
        Except.ok (recResult sampleSearch sampleCatalog sampleReq) ∧
    (recResult sampleSearch sampleCatalog sampleReq).length =
      min sampleReq.top_n
        (filteredCandidates sampleCatalog sampleReq.filters
          (sampleSearch sampleReq.query 50)).length :=
  ⟨(recommend_length sampleSearch sampleCatalog sampleReq (by decide)).1,
   (recommend_length sampleSearch sampleCatalog sampleReq (by decide)).2.1⟩

end GameRec
